import Mathlib

/-!
Verification of the WebSocket dictation control-channel server
(`websocket_dictation_fixed.py`), the authenticated variant the design
document consolidates.

The embedding is shallow and executable:

* JSON objects are association lists from string keys to string values
  (`jGet` models Python's `dict.get`, which returns `None` on a missing key).
* `websocket_handler` is modelled as a function from the outcome of the
  authentication exchange and the list of subsequently received frames to the
  per-connection event trace (messages sent, `handle_message` dispatches,
  membership changes in `connected_clients`, connection close).
* `send_command` is modelled as a pure function from the client set and a
  send-success oracle to the pruned set and the Python return value.  Note the
  source returns `sent_count > 0` — a `bool` — not `sent_count` itself; since
  Python `bool` is an `int` subtype with `True == 1` and `False == 0`, `pyInt`
  gives that integer reading.
* The health monitor, `start/stop_health_monitoring` and the connection
  teardown path are modelled as transitions on a `ServerState`; the field
  `liveMonitors` counts `health_monitor_loop` tasks that are actually running
  (task cancellation is modelled as immediate).
* The controller side (`handle_transcript`, `start_dictation`,
  `launch_persistent_chrome_tab`) is modelled with explicit state records; the
  clipboard/paste and process-launch collaborators are recorded as state
  fields (`clipboard`, `pasted`, `openURLCalls`).

One source remark: the handler's `except` clause names
`asyncio.TimeoutExpired`, which does not exist (the correct name is
`asyncio.TimeoutError`), so on timeout or malformed JSON an `AttributeError`
propagates out of the handler and the serving library closes the socket.
Observably the connection is closed, nothing further is processed and the
client is never registered — exactly what the `[Ev.closed]` trace records —
so the model maps both the intended and the actual control flow to that trace.
-/

namespace DictationFixed

/-- A parsed JSON object: an association list from string keys to string
values (every protocol field the claims touch is a string). -/
abbrev JsonObj := List (String × String)

/-- `jGet d k` models Python `d.get(k)`: `some` of the first value bound to
`k`, or `none` when the key is absent. -/
def jGet (d : JsonObj) (k : String) : Option String :=
  (d.find? (fun p => p.1 == k)).map (fun p => p.2)

/-- `jGetD d k v` models Python `d.get(k, v)`. -/
def jGetD (d : JsonObj) (k : String) (v : String) : String :=
  (jGet d k).getD v

/-- The `AUTH_SUCCESS` reply sent on a successful handshake (line 102). -/
def authSuccessMsg : JsonObj := [("type", "AUTH_SUCCESS")]

/-- The `AUTH_FAILED` reply (lines 92-97): it carries the current valid token
and a reconnect URL so a well-behaved client can resynchronize. -/
def authFailedMsg (httpPort : Nat) (sessionToken : String) : JsonObj :=
  [("type", "AUTH_FAILED"),
   ("message", "Invalid authentication token"),
   ("current_token", sessionToken),
   ("reconnect_url",
     "http://127.0.0.1:" ++ toString httpPort ++
       "/speech-persistent.html?token=" ++ sessionToken)]

/-- The `ACKNOWLEDGE` reply to a `READY` event (lines 142-145). -/
def acknowledgeMsg : JsonObj :=
  [("type", "ACKNOWLEDGE"), ("message", "Controller connected")]

/-- Outcome of the authentication exchange (lines 85-108): the awaited first
message timed out, failed JSON parsing, or parsed to an object `d`. -/
inductive AuthAttempt
  | timeout
  | badJson (raw : String)
  | parsed (d : JsonObj)
deriving DecidableEq

/-- A frame received after authentication inside `async for` (lines 117-124):
either invalid JSON (logged and skipped) or a parsed object. -/
inductive Frame
  | badJson (raw : String)
  | msg (d : JsonObj)
deriving DecidableEq

/-- Observable per-connection events of `websocket_handler`. -/
inductive Ev
  | sent (m : JsonObj)        -- `websocket.send` of a serialized object
  | dispatched (d : JsonObj)  -- a call of `handle_message(d, websocket)`
  | added                     -- `connected_clients.add(websocket)` (line 111)
  | removed                   -- `connected_clients.discard(websocket)` (line 131)
  | closed                    -- the connection is closed without registering
deriving DecidableEq

/-- Events produced by one post-authentication frame: invalid JSON is logged
and skipped, a parsed object is dispatched to `handle_message`. -/
def frameEvents : Frame → List Ev
  | Frame.badJson _ => []
  | Frame.msg d => [Ev.dispatched d]

/-- Event trace of `websocket_handler` (lines 81-133).  Timeout and malformed
JSON abort the handshake and close the connection; an object failing
`auth_data.get('type') != 'AUTH' or auth_data.get('token') != session_token`
receives `AUTH_FAILED` and a close; otherwise `AUTH_SUCCESS` is sent, the
connection is registered, every later frame is dispatched, and the `finally`
block deregisters on disconnect. -/
def websocket_handler (httpPort : Nat) (sessionToken : String)
    (auth : AuthAttempt) (frames : List Frame) : List Ev :=
  match auth with
  | AuthAttempt.timeout => [Ev.closed]
  | AuthAttempt.badJson _ => [Ev.closed]
  | AuthAttempt.parsed d =>
    if jGet d "type" ≠ some "AUTH" ∨ jGet d "token" ≠ some sessionToken then
      [Ev.sent (authFailedMsg httpPort sessionToken), Ev.closed]
    else
      Ev.sent authSuccessMsg :: Ev.added ::
        (frames.flatMap frameEvents ++ [Ev.removed])

/-- Scans a trace: `true` iff no `handle_message` dispatch happens before an
`AUTH_SUCCESS` message is sent. -/
def noDispatchBeforeAuthSuccess : List Ev → Bool
  | [] => true
  | Ev.sent m :: rest =>
    if jGet m "type" = some "AUTH_SUCCESS" then true
    else noDispatchBeforeAuthSuccess rest
  | Ev.dispatched _ :: _ => false
  | _ :: rest => noDispatchBeforeAuthSuccess rest

/-- Connections are identified by opaque handles. -/
abbrev Client := Nat

/-- Result of `send_command` (lines 158-186): the client set after pruning and
the Python return value. -/
structure BroadcastResult where
  clients : List Client
  ret : Bool
deriving DecidableEq

/-- The number of successful sends counted by the `sent_count` local. -/
def sentCount (clients : List Client) (sendOk : Client → Bool) : Nat :=
  clients.countP sendOk

/-- `send_command` (lines 158-186): on an empty set it returns `False` at
once; otherwise it iterates over a copy of the set, counts successful sends,
collects failed connections into `disconnected`, removes them
(`connected_clients -= disconnected`) and returns `sent_count > 0` — a
boolean, not the count. -/
def send_command (clients : List Client) (sendOk : Client → Bool) :
    BroadcastResult :=
  if clients.isEmpty then { clients := clients, ret := false }
  else
    let disconnected := clients.filter (fun c => ! sendOk c)
    let sent_count := clients.countP sendOk
    { clients := clients.filter (fun c => ! decide (c ∈ disconnected)),
      ret := decide (0 < sent_count) }

/-- The integer value of a Python `bool` (`bool` is an `int` subtype:
`True == 1`, `False == 0`). -/
def pyInt (b : Bool) : Nat := if b then 1 else 0

/-- Server state shared by the accept path, the broadcast path and the health
monitor: `clients` is `connected_clients`, `ping_task` records whether
`self.ping_task` is not `None`, and `liveMonitors` counts
`health_monitor_loop` tasks that are actually running (cancellation is
modelled as taking effect immediately). -/
structure ServerState where
  clients : List Client
  ping_task : Bool
  liveMonitors : Nat
deriving DecidableEq

/-- `start_health_monitoring` (lines 221-224): creates a monitor task only
when none is recorded. -/
def start_health_monitoring (s : ServerState) : ServerState :=
  if s.ping_task then s
  else { s with ping_task := true, liveMonitors := s.liveMonitors + 1 }

/-- `stop_health_monitoring` (lines 226-230): cancels the recorded task, if
any, and clears the record. -/
def stop_health_monitoring (s : ServerState) : ServerState :=
  if s.ping_task then
    { s with ping_task := false, liveMonitors := s.liveMonitors - 1 }
  else s

/-- One iteration of the `while True` body of `health_monitor_loop`
(lines 235-243): after the sleep, if clients are connected it broadcasts
`PING` via `send_command` (which already prunes failed sends); if that
returned `False` it clears `connected_clients`.  The loop itself never exits:
the task stays live and keeps scheduling further ticks until it is cancelled
from outside. -/
def health_monitor_tick (sendOk : Client → Bool) (s : ServerState) :
    ServerState :=
  if s.clients.isEmpty then s
  else
    let r := send_command s.clients sendOk
    if r.ret then { s with clients := r.clients }
    else { s with clients := [] }

/-- Whether the monitor task will schedule another tick: true exactly while
a `health_monitor_loop` task is running (its loop is `while True`). -/
def monitorTicking (s : ServerState) : Bool := decide (0 < s.liveMonitors)

/-- The `finally` block of `websocket_handler` (lines 130-133): discard the
connection and stop health monitoring when the set becomes empty. -/
def connection_teardown (c : Client) (s : ServerState) : ServerState :=
  let s1 : ServerState := { s with clients := s.clients.erase c }
  if s1.clients.isEmpty then stop_health_monitoring s1 else s1

/-- The successful tail of `websocket_handler` (lines 110-114): register the
authenticated connection and start health monitoring. -/
def register_client (c : Client) (s : ServerState) : ServerState :=
  start_health_monitoring
    { s with clients := if s.clients.contains c then s.clients
                        else s.clients ++ [c] }

/-- Events that mutate the monitor/client state, for reachability. -/
inductive Op
  | authSuccess (c : Client)
  | teardown (c : Client)
  | tick (sendOk : Client → Bool)

/-- Apply one event; a monitor tick can only run while a monitor task does. -/
def applyOp : Op → ServerState → ServerState
  | Op.authSuccess c, s => register_client c s
  | Op.teardown c, s => connection_teardown c s
  | Op.tick sendOk, s =>
    if 0 < s.liveMonitors then health_monitor_tick sendOk s else s

/-- Apply a sequence of events, oldest first. -/
def applyOps (ops : List Op) (s : ServerState) : ServerState :=
  ops.foldl (fun s op => applyOp op s) s

/-- The server's start state: no clients, no monitor task. -/
def initialServer : ServerState :=
  { clients := [], ping_task := false, liveMonitors := 0 }

/-- The running monitor tasks are exactly the one recorded in `ping_task`. -/
def monitorInv (s : ServerState) : Prop :=
  s.liveMonitors = if s.ping_task then 1 else 0

/-- The characters removed by Python `str.strip()` with no argument (the
ASCII whitespace set; the claims involve no non-ASCII whitespace). -/
def isPySpace (ch : Char) : Bool :=
  ch == ' ' || ch == '\t' || ch == '\n' || ch == '\r' ||
    ch == '\u000B' || ch == '\u000C'

/-- Python `str.strip()`: remove leading and trailing whitespace. -/
def pyStrip (s : String) : String :=
  ⟨List.rdropWhile isPySpace (s.data.dropWhile isPySpace)⟩

/-- Controller-side state touched by transcript handling: the dictation flag
`is_listening`, the clipboard collaborator's content, and the list of texts
handed to the paste-injection collaborator. -/
structure Controller where
  is_listening : Bool
  clipboard : String
  pasted : List String
deriving DecidableEq

/-- `WebSocketDictationController.handle_transcript` (lines 400-417): an
empty or whitespace-only transcript is logged and dropped; otherwise the
stripped transcript is copied to the clipboard and pasted into the active
application.  Note it never touches `is_listening`. -/
def handle_transcript (transcript : String) (c : Controller) : Controller :=
  if transcript = "" ∨ pyStrip transcript = "" then c
  else
    { c with clipboard := pyStrip transcript,
             pasted := c.pasted ++ [pyStrip transcript] }

/-- Effect of one `handle_message` dispatch: the replies sent back on the
connection and the controller state afterwards. -/
structure MsgEffect where
  replies : List JsonObj
  ctrl : Controller
deriving DecidableEq

/-- `FixedDictationServer.handle_message` (lines 135-156): `READY` is
acknowledged; `TRANSCRIPT_READY` strips the `text` payload (missing key
defaults to the empty string) and forwards a non-empty result to
`handle_transcript`; every other message type — `PONG` included — only logs
the type and changes nothing. -/
def handle_message (d : JsonObj) (c : Controller) : MsgEffect :=
  if jGet d "type" = some "READY" then
    { replies := [acknowledgeMsg], ctrl := c }
  else if jGet d "type" = some "TRANSCRIPT_READY" then
    let transcript := pyStrip (jGetD d "text" "")
    if transcript ≠ "" then
      { replies := [], ctrl := handle_transcript transcript c }
    else
      { replies := [], ctrl := c }
  else
    { replies := [], ctrl := c }

/-- The `PONG` event message. -/
def pongMsg : JsonObj := [("type", "PONG")]

/-- Value of an ASCII hex digit, if any. -/
def hexDigit? (c : Char) : Option Nat :=
  if '0' ≤ c ∧ c ≤ '9' then some (c.toNat - '0'.toNat)
  else if 'a' ≤ c ∧ c ≤ 'f' then some (c.toNat - 'a'.toNat + 10)
  else if 'A' ≤ c ∧ c ≤ 'F' then some (c.toNat - 'A'.toNat + 10)
  else none

/-- Percent-decoding of a character list: `%hh` with two hex digits becomes
the character of that code, anything else is copied.  (This models
`urllib.parse.unquote` for single-byte escapes; multi-byte UTF-8 escapes
decode to other non-ASCII characters in both readings and no route name
contains non-ASCII characters, so path admissibility agrees.) -/
def pyUnquoteAux : List Char → List Char
  | [] => []
  | '%' :: a :: b :: rest =>
    match hexDigit? a, hexDigit? b with
    | some hi, some lo => Char.ofNat (16 * hi + lo) :: pyUnquoteAux rest
    | _, _ => '%' :: pyUnquoteAux (a :: b :: rest)
  | c :: rest => c :: pyUnquoteAux rest

/-- `urllib.parse.unquote` on the request path. -/
def pyUnquote (s : String) : String := ⟨pyUnquoteAux s.data⟩

/-- Python `str.strip('/')`: remove leading and trailing slashes. -/
def pyStripSlashes (s : String) : String :=
  ⟨List.rdropWhile (fun c => c == '/') (s.data.dropWhile (fun c => c == '/'))⟩

/-- An HTTP response: status, headers in emission order, body bytes. -/
structure HttpResponse where
  status : Nat
  headers : List (String × String)
  body : Option String
deriving DecidableEq

/-- The 200 response of `do_GET` (lines 41-51): the bootstrap resource's
bytes with content-type, length, no-cache and the three hardening headers. -/
def fileResponse (content : String) : HttpResponse :=
  { status := 200,
    headers := [("Content-type", "text/html; charset=utf-8"),
                ("Content-Length", toString content.length),
                ("Cache-Control", "no-cache"),
                ("X-Content-Type-Options", "nosniff"),
                ("X-Frame-Options", "DENY"),
                ("Referrer-Policy", "no-referrer")],
    body := some content }

/-- A `send_error(404, ...)` response. -/
def notFoundResponse : HttpResponse :=
  { status := 404, headers := [], body := none }

/-- The admissibility test of `do_GET` (line 33) on the normalized path. -/
def allowedPath (path : String) : Bool :=
  path == "" || path == "speech-persistent.html" ||
    path.startsWith "speech-persistent.html?"

/-- `RestrictedHTTPHandler.do_GET` (lines 27-58): the request path is
percent-decoded and stripped of surrounding slashes; only the root path and
the bootstrap resource name (optionally with a query string) are served, from
a fixed file path — `fileContent` is that file's content, `none` when the
file is missing (`FileNotFoundError` becomes a 404); every other path gets a
404. -/
def do_GET (fileContent : Option String) (reqPath : String) : HttpResponse :=
  let path := pyStripSlashes (pyUnquote reqPath)
  if allowedPath path then
    match fileContent with
    | some content => fileResponse content
    | none => notFoundResponse
  else notFoundResponse

/-- Controller state for the start-dictation and relaunch paths:
`tab_launched` is the guard set on the first successful launch and never
reset, `openURLCalls` counts invocations of the process-launch collaborator
(`subprocess.run(['open', ...])`), and `original_clipboard` mirrors the
clipboard snapshot taken before listening starts. -/
structure CtrlLaunch where
  is_listening : Bool
  tab_launched : Bool
  openURLCalls : Nat
  original_clipboard : String
deriving DecidableEq

/-- `launch_persistent_chrome_tab` (lines 298-315): returns at once when
`tab_launched` is already set; otherwise invokes the process-launch
collaborator, and records `tab_launched := True` only when the launch
command succeeded (`launchOk`). -/
def launch_persistent_chrome_tab (launchOk : Bool) (c : CtrlLaunch) :
    CtrlLaunch :=
  if c.tab_launched then c
  else { c with openURLCalls := c.openURLCalls + 1, tab_launched := launchOk }

/-- `start_dictation` (lines 367-389): a no-op while already listening or
with no connected tab; otherwise saves the clipboard, starts listening and
broadcasts `START_LISTENING` — `deliveryOk` is `send_command`'s boolean
result.  On delivery failure it resets `is_listening` and calls
`launch_persistent_chrome_tab`. -/
def start_dictation (connected : Bool) (deliveryOk : Bool) (launchOk : Bool)
    (clipboardNow : String) (c : CtrlLaunch) : CtrlLaunch :=
  if c.is_listening || !connected then c
  else
    let c1 := { c with is_listening := true,
                       original_clipboard := clipboardNow }
    if deliveryOk then c1
    else launch_persistent_chrome_tab launchOk { c1 with is_listening := false }

/-- C1: For every connection, no event message is dispatched to
`handle_message` before the handshake has succeeded and `AUTH_SUCCESS` has
been sent, and only connections whose first message passed the token check
(`type = AUTH` and `token = session_token`) are ever added to
`connected_clients`. -/
theorem C1_no_event_dispatched_before_auth (port : Nat) (tok : String)
    (auth : AuthAttempt) (frames : List Frame) :
    noDispatchBeforeAuthSuccess (websocket_handler port tok auth frames) = true ∧
    (Ev.added ∈ websocket_handler port tok auth frames →
      ∃ d, auth = AuthAttempt.parsed d ∧ jGet d "type" = some "AUTH" ∧
        jGet d "token" = some tok) := by
  cases auth with
  | timeout =>
    exact ⟨rfl, fun h => absurd h (by simp [websocket_handler])⟩
  | badJson raw =>
    exact ⟨rfl, fun h => absurd h (by simp [websocket_handler])⟩
  | parsed d =>
    by_cases hcond : jGet d "type" ≠ some "AUTH" ∨ jGet d "token" ≠ some tok
    · constructor
      · simp only [websocket_handler, if_pos hcond]
        rfl
      · intro h
        simp only [websocket_handler, if_pos hcond] at h
        simp at h
    · push_neg at hcond
      constructor
      · have hif : ¬ (jGet d "type" ≠ some "AUTH" ∨ jGet d "token" ≠ some tok) := by
          intro h
          rcases h with h | h
          · exact h hcond.1
          · exact h hcond.2
        simp only [websocket_handler, if_neg hif]
        rfl
      · intro _
        exact ⟨d, rfl, hcond.1, hcond.2⟩

/-- Witness for C1 at a concrete authenticated connection. -/
theorem C1_witness :
    noDispatchBeforeAuthSuccess
      (websocket_handler 8080 "tok0"
        (AuthAttempt.parsed [("type", "AUTH"), ("token", "tok0")])
        [Frame.msg [("type", "READY")]]) = true ∧
    (∃ d, AuthAttempt.parsed [("type", "AUTH"), ("token", "tok0")]
        = AuthAttempt.parsed d ∧ jGet d "type" = some "AUTH" ∧
        jGet d "token" = some "tok0") := by
  refine ⟨(C1_no_event_dispatched_before_auth 8080 "tok0" _ _).1, ?_⟩
  exact (C1_no_event_dispatched_before_auth 8080 "tok0"
    (AuthAttempt.parsed [("type", "AUTH"), ("token", "tok0")])
    [Frame.msg [("type", "READY")]]).2 (by decide)

/-- C2: A handshake whose first message presents a token `T` different from
the session token receives `AUTH_FAILED` (carrying the current valid token in
`current_token`), the connection is closed, and it is never added to
`connected_clients`. -/
theorem C2_bad_token_rejected (port : Nat) (tok T : String) (d : JsonObj)
    (frames : List Frame) (hT : T ≠ tok) (hd : jGet d "token" = some T) :
    websocket_handler port tok (AuthAttempt.parsed d) frames
        = [Ev.sent (authFailedMsg port tok), Ev.closed] ∧
    jGet (authFailedMsg port tok) "current_token" = some tok ∧
    Ev.added ∉ websocket_handler port tok (AuthAttempt.parsed d) frames := by
  have hcond : jGet d "type" ≠ some "AUTH" ∨ jGet d "token" ≠ some tok := by
    refine Or.inr ?_
    rw [hd]
    intro h
    exact hT (Option.some.inj h)
  refine ⟨?_, rfl, ?_⟩
  · simp only [websocket_handler, if_pos hcond]
  · simp only [websocket_handler, if_pos hcond]
    simp

/-- Witness for C2: the wrong token `"bad"` against session token `"good"`. -/
theorem C2_witness :
    websocket_handler 8080 "good"
        (AuthAttempt.parsed [("type", "AUTH"), ("token", "bad")]) []
      = [Ev.sent (authFailedMsg 8080 "good"), Ev.closed] ∧
    jGet (authFailedMsg 8080 "good") "current_token" = some "good" ∧
    Ev.added ∉ websocket_handler 8080 "good"
        (AuthAttempt.parsed [("type", "AUTH"), ("token", "bad")]) [] :=
  C2_bad_token_rejected 8080 "good" "bad"
    [("type", "AUTH"), ("token", "bad")] [] (by decide) (by decide)

/-- C3: A connection whose authentication message times out, is malformed
JSON, or lacks the required key is failed closed: its trace is exactly a
close (preceded by `AUTH_FAILED` in the missing-key case), so no frame is
ever dispatched and the connection is never added to `connected_clients`. -/
theorem C3_handshake_failure_closed (port : Nat) (tok raw : String)
    (d : JsonObj) (frames : List Frame) :
    websocket_handler port tok AuthAttempt.timeout frames = [Ev.closed] ∧
    websocket_handler port tok (AuthAttempt.badJson raw) frames = [Ev.closed] ∧
    (jGet d "type" = none →
      websocket_handler port tok (AuthAttempt.parsed d) frames
        = [Ev.sent (authFailedMsg port tok), Ev.closed]) ∧
    (jGet d "token" = none →
      websocket_handler port tok (AuthAttempt.parsed d) frames
        = [Ev.sent (authFailedMsg port tok), Ev.closed]) := by
  refine ⟨rfl, rfl, fun h => ?_, fun h => ?_⟩
  · have hcond : jGet d "type" ≠ some "AUTH" ∨ jGet d "token" ≠ some tok := by
      refine Or.inl ?_
      rw [h]
      exact fun hh => Option.noConfusion hh
    simp only [websocket_handler, if_pos hcond]
  · have hcond : jGet d "type" ≠ some "AUTH" ∨ jGet d "token" ≠ some tok := by
      refine Or.inr ?_
      rw [h]
      exact fun hh => Option.noConfusion hh
    simp only [websocket_handler, if_pos hcond]

/-- Witness for C3 at first messages lacking the `type` or the `token`
key. -/
theorem C3_witness :
    websocket_handler 8080 "tok0" AuthAttempt.timeout [] = [Ev.closed] ∧
    websocket_handler 8080 "tok0" (AuthAttempt.badJson "oops") []
      = [Ev.closed] ∧
    websocket_handler 8080 "tok0" (AuthAttempt.parsed [("token", "tok0")]) []
      = [Ev.sent (authFailedMsg 8080 "tok0"), Ev.closed] ∧
    websocket_handler 8080 "tok0" (AuthAttempt.parsed [("type", "AUTH")]) []
      = [Ev.sent (authFailedMsg 8080 "tok0"), Ev.closed] := by
  have h1 := C3_handshake_failure_closed 8080 "tok0" "oops" [("token", "tok0")] []
  have h2 := C3_handshake_failure_closed 8080 "tok0" "oops" [("type", "AUTH")] []
  exact ⟨h1.1, h1.2.1, h1.2.2.1 (by decide), h2.2.2.2 (by decide)⟩

/-- C4 counterexample: with two clients and both sends succeeding,
`send_command` returns `True`, whose integer value is `1`, while the count of
successful sends is `2` — the function does not return the count. -/
theorem C4_counterexample_bool_not_count :
    sentCount [0, 1] (fun _ => true) = 2 ∧
    (send_command [0, 1] (fun _ => true)).ret = true ∧
    pyInt ((send_command [0, 1] (fun _ => true)).ret)
      ≠ sentCount [0, 1] (fun _ => true) := by
  refine ⟨rfl, rfl, by decide⟩

/-- C4 amended: `send_command` attempts a send to every member, removes
exactly the members whose send failed without aborting the others, and
returns `True` iff at least one send succeeded (a boolean, not the count);
on an empty set it returns `False` with the set unchanged and does not throw
(it is a total function). -/
theorem C4_broadcast_prunes_and_returns_bool (clients : List Client)
    (sendOk : Client → Bool) :
    (send_command clients sendOk).clients = clients.filter sendOk ∧
    (send_command clients sendOk).ret = decide (0 < sentCount clients sendOk) ∧
    send_command [] sendOk = { clients := [], ret := false } := by
  refine ⟨?_, ?_, rfl⟩
  · unfold send_command
    split
    · next h =>
        rw [List.isEmpty_iff.mp h]
        rfl
    · next h =>
        apply List.filter_congr
        intro x hx
        by_cases hs : sendOk x
        · simp [List.mem_filter, hs]
        · simp [List.mem_filter, hx, hs]
  · unfold send_command
    split
    · next h =>
        rw [List.isEmpty_iff.mp h]
        simp [sentCount]
    · next h => rfl

/-- C5 counterexample: one client, its ping send fails.  The tick clears
`connected_clients`, but the monitor task is still live and keeps scheduling
ticks — `health_monitor_loop` is `while True` and nothing in the failed-ping
branch cancels it, refuting "once the set is empty the monitor stops
scheduling further ticks". -/
theorem C5_counterexample_monitor_keeps_ticking :
    (health_monitor_tick (fun _ => false)
        { clients := [0], ping_task := true, liveMonitors := 1 }).clients
      = [] ∧
    monitorTicking (health_monitor_tick (fun _ => false)
        { clients := [0], ping_task := true, liveMonitors := 1 }) = true := by
  refine ⟨rfl, rfl⟩

/-- C5 amended: when a ping broadcast to a non-empty set fails entirely, the
monitor clears the Connected-Client Set but its task keeps running and keeps
scheduling ticks (skipping pings while the set is empty); the monitor is
cancelled only when a connection teardown finds the set empty, which does set
the running-task count to zero. -/
theorem C5_failed_ping_clears_but_keeps_ticking (s : ServerState)
    (sendOk : Client → Bool) (c : Client)
    (hinv : monitorInv s) (hne : s.clients ≠ [])
    (hfail : ∀ x ∈ s.clients, sendOk x = false) :
    (health_monitor_tick sendOk s).clients = [] ∧
    monitorTicking (health_monitor_tick sendOk s) = monitorTicking s ∧
    ((connection_teardown c s).clients = [] →
      monitorTicking (connection_teardown c s) = false) := by
  have hcount : s.clients.countP sendOk = 0 := by
    rw [List.countP_eq_zero]
    intro x hx
    simp [hfail x hx]
  have hret : (send_command s.clients sendOk).ret = false := by
    unfold send_command
    split
    · rfl
    · simp [hcount]
  refine ⟨?_, ?_, ?_⟩
  · unfold health_monitor_tick
    rw [if_neg (by simpa [List.isEmpty_iff] using hne)]
    simp [hret]
  · unfold health_monitor_tick
    rw [if_neg (by simpa [List.isEmpty_iff] using hne)]
    simp [hret, monitorTicking]
  · intro hempty
    unfold connection_teardown at hempty ⊢
    by_cases h1 : (s.clients.erase c).isEmpty
    · rw [if_pos h1]
      unfold stop_health_monitoring monitorInv at *
      by_cases h2 : s.ping_task
      · rw [if_pos h2]
        simp only [h2, if_true] at hinv
        simp [monitorTicking, hinv]
      · rw [if_neg h2]
        simp only [h2, if_false] at hinv
        simp [monitorTicking, hinv]
    · rw [if_neg h1] at hempty
      exact absurd (by simpa [List.isEmpty_iff] using hempty) h1

/-- Witness for C5 amended: a single client whose send fails. -/
theorem C5_witness :
    (health_monitor_tick (fun _ => false)
        { clients := [3], ping_task := true, liveMonitors := 1 }).clients
      = [] ∧
    monitorTicking (health_monitor_tick (fun _ => false)
        { clients := [3], ping_task := true, liveMonitors := 1 })
      = monitorTicking { clients := [3], ping_task := true, liveMonitors := 1 } ∧
    ((connection_teardown 3
        { clients := [3], ping_task := true, liveMonitors := 1 }).clients = [] →
      monitorTicking (connection_teardown 3
        { clients := [3], ping_task := true, liveMonitors := 1 }) = false) :=
  C5_failed_ping_clears_but_keeps_ticking
    { clients := [3], ping_task := true, liveMonitors := 1 }
    (fun _ => false) 3 rfl (by decide) (by decide)

/-- `start_health_monitoring` preserves the single-recorded-task invariant. -/
theorem monitorInv_start (s : ServerState) (h : monitorInv s) :
    monitorInv (start_health_monitoring s) := by
  unfold start_health_monitoring
  by_cases hp : s.ping_task
  · rw [if_pos hp]
    exact h
  · rw [if_neg hp]
    have hb : s.ping_task = false := by simpa using hp
    unfold monitorInv at h ⊢
    simp only [hb, if_false] at h
    simp [h]

/-- `stop_health_monitoring` preserves the single-recorded-task invariant. -/
theorem monitorInv_stop (s : ServerState) (h : monitorInv s) :
    monitorInv (stop_health_monitoring s) := by
  unfold stop_health_monitoring
  by_cases hp : s.ping_task
  · rw [if_pos hp]
    unfold monitorInv at h ⊢
    simp only [hp, if_true] at h
    simp [h]
  · rw [if_neg hp]
    exact h

/-- A monitor tick touches only the client set, so it preserves the
invariant. -/
theorem monitorInv_tick (sendOk : Client → Bool) (s : ServerState)
    (h : monitorInv s) : monitorInv (health_monitor_tick sendOk s) := by
  unfold health_monitor_tick
  dsimp only
  split
  · exact h
  · split
    · exact h
    · exact h

/-- Every event preserves the single-recorded-task invariant. -/
theorem monitorInv_applyOp (op : Op) (s : ServerState) (h : monitorInv s) :
    monitorInv (applyOp op s) := by
  cases op with
  | authSuccess c =>
    exact monitorInv_start _ h
  | teardown c =>
    show monitorInv (connection_teardown c s)
    unfold connection_teardown
    dsimp only
    split
    · exact monitorInv_stop _ h
    · exact h
  | tick sendOk =>
    show monitorInv (if 0 < s.liveMonitors then health_monitor_tick sendOk s else s)
    split
    · exact monitorInv_tick _ _ h
    · exact h

/-- The invariant holds along every event sequence. -/
theorem monitorInv_applyOps (ops : List Op) :
    ∀ s : ServerState, monitorInv s → monitorInv (applyOps ops s) := by
  induction ops with
  | nil => exact fun s h => h
  | cons op t ih =>
    intro s h
    rw [applyOps, List.foldl_cons]
    exact ih _ (monitorInv_applyOp op s h)

/-- C10: At most one health-monitor task exists at any time along every
reachable execution; `start_health_monitoring` is a no-op while a task is
recorded; a second client authenticating while the monitor runs creates no
second task; and a stop followed by a later successful authentication yields
exactly one running monitor. -/
theorem C10_single_monitor_task :
    (∀ ops : List Op, monitorInv (applyOps ops initialServer) ∧
      (applyOps ops initialServer).liveMonitors ≤ 1) ∧
    (∀ s : ServerState, s.ping_task = true → start_health_monitoring s = s) ∧
    (∀ (s : ServerState) (c : Client), s.ping_task = true →
      (register_client c s).liveMonitors = s.liveMonitors) ∧
    (∀ s : ServerState, monitorInv s → ∀ c : Client,
      (register_client c (stop_health_monitoring s)).liveMonitors = 1) := by
  refine ⟨?_, ?_, ?_, ?_⟩
  · intro ops
    have hinv : monitorInv (applyOps ops initialServer) :=
      monitorInv_applyOps ops initialServer rfl
    refine ⟨hinv, ?_⟩
    rw [hinv]
    split
    · exact Nat.le_refl 1
    · exact Nat.zero_le 1
  · intro s h
    unfold start_health_monitoring
    rw [if_pos h]
  · intro s c h
    simp [register_client, start_health_monitoring, h]
  · intro s hinv c
    unfold register_client start_health_monitoring stop_health_monitoring
    unfold monitorInv at hinv
    by_cases hp : s.ping_task
    · simp only [hp, if_true] at hinv
      simp [hp, hinv]
    · have hb : s.ping_task = false := by simpa using hp
      simp only [hb, if_false] at hinv
      simp [hb, hinv]

/-- Witness for C10: two clients authenticate in sequence from the start
state; the second authentication while the monitor runs changes nothing. -/
theorem C10_witness :
    monitorInv (applyOps [Op.authSuccess 1, Op.authSuccess 2] initialServer) ∧
    (applyOps [Op.authSuccess 1, Op.authSuccess 2] initialServer).liveMonitors
      ≤ 1 ∧
    start_health_monitoring { clients := [1], ping_task := true, liveMonitors := 1 }
      = { clients := [1], ping_task := true, liveMonitors := 1 } ∧
    (register_client 2
        { clients := [1], ping_task := true, liveMonitors := 1 }).liveMonitors
      = ({ clients := [1], ping_task := true, liveMonitors := 1 } :
          ServerState).liveMonitors ∧
    (register_client 2 (stop_health_monitoring
        { clients := [1], ping_task := true, liveMonitors := 1 })).liveMonitors
      = 1 :=
  ⟨(C10_single_monitor_task.1 _).1, (C10_single_monitor_task.1 _).2,
   C10_single_monitor_task.2.1
     { clients := [1], ping_task := true, liveMonitors := 1 } rfl,
   C10_single_monitor_task.2.2.1
     { clients := [1], ping_task := true, liveMonitors := 1 } 2 rfl,
   C10_single_monitor_task.2.2.2
     { clients := [1], ping_task := true, liveMonitors := 1 } rfl 2⟩

/-- Dropping an already-dropped-from-the-left list drops nothing more: the
list produced by `dropWhile`, right-trimmed by `rdropWhile`, still starts
with a character failing the predicate (or is empty). -/
theorem dropWhile_after_rdropWhile {α : Type} (p : α → Bool) (l : List α) :
    (List.rdropWhile p (l.dropWhile p)).dropWhile p
      = List.rdropWhile p (l.dropWhile p) := by
  obtain ⟨t, ht⟩ := List.rdropWhile_prefix p (l.dropWhile p)
  cases hm : List.rdropWhile p (l.dropWhile p) with
  | nil => rfl
  | cons a m2 =>
    rw [hm] at ht
    have hpa : p a = false := by
      have hmatch := List.head?_dropWhile_not p l
      have hh : (l.dropWhile p).head? = some a := by
        rw [← ht]
        rfl
      rw [hh] at hmatch
      exact hmatch
    simp [List.dropWhile_cons, hpa]

/-- Python strip is idempotent: stripping a stripped string is a no-op. -/
theorem pyStrip_idem (s : String) : pyStrip (pyStrip s) = pyStrip s := by
  show (⟨List.rdropWhile isPySpace
          ((List.rdropWhile isPySpace
            (s.data.dropWhile isPySpace)).dropWhile isPySpace)⟩ : String)
      = ⟨List.rdropWhile isPySpace (s.data.dropWhile isPySpace)⟩
  rw [dropWhile_after_rdropWhile, List.rdropWhile_idempotent]

/-- C6 counterexample: a `TRANSCRIPT_READY` with text `"  hello world  "`
arriving while `is_listening = true` forwards the trimmed text, but the
dictation state stays listening — `handle_transcript` never writes
`is_listening`, refuting "the controller's dictation state transitions to
not-listening". -/
theorem C6_counterexample_state_stays_listening :
    (handle_message [("type", "TRANSCRIPT_READY"), ("text", "  hello world  ")]
        { is_listening := true, clipboard := "old", pasted := [] }).ctrl
      = { is_listening := true, clipboard := "hello world",
          pasted := ["hello world"] } := by
  decide

/-- C6 amended: an empty or whitespace-only `TRANSCRIPT_READY` payload is
discarded with the controller state unchanged; a non-trivial payload forwards
exactly the trimmed text to the clipboard and paste collaborators, with no
reply on the channel and the dictation state left unchanged (the
not-listening transition happens only in `stop_dictation`). -/
theorem C6_transcript_trimmed_forwarded (d : JsonObj) (c : Controller)
    (t : String) (hty : jGet d "type" = some "TRANSCRIPT_READY")
    (htext : jGetD d "text" "" = t) :
    (pyStrip t = "" → handle_message d c = { replies := [], ctrl := c }) ∧
    (pyStrip t ≠ "" →
      (handle_message d c).ctrl.clipboard = pyStrip t ∧
      (handle_message d c).ctrl.pasted = c.pasted ++ [pyStrip t] ∧
      (handle_message d c).ctrl.is_listening = c.is_listening ∧
      (handle_message d c).replies = []) := by
  have hne : jGet d "type" ≠ some "READY" := by
    rw [hty]
    intro h
    exact absurd h (by decide)
  constructor
  · intro hstrip
    simp [handle_message, hne, hty, htext, hstrip]
  · intro hstrip
    simp [handle_message, hne, hty, htext, hstrip, handle_transcript,
      pyStrip_idem]

/-- Witness for C6 amended at text `"  hi  "`. -/
theorem C6_witness :
    (handle_message [("type", "TRANSCRIPT_READY"), ("text", "  hi  ")]
        { is_listening := false, clipboard := "", pasted := [] }).ctrl.clipboard
      = pyStrip "  hi  " ∧
    (handle_message [("type", "TRANSCRIPT_READY"), ("text", "  hi  ")]
        { is_listening := false, clipboard := "", pasted := [] }).ctrl.pasted
      = [] ++ [pyStrip "  hi  "] ∧
    (handle_message [("type", "TRANSCRIPT_READY"), ("text", "  hi  ")]
        { is_listening := false, clipboard := "", pasted := [] }).ctrl.is_listening
      = false ∧
    (handle_message [("type", "TRANSCRIPT_READY"), ("text", "  hi  ")]
        { is_listening := false, clipboard := "", pasted := [] }).replies
      = [] :=
  (C6_transcript_trimmed_forwarded
    [("type", "TRANSCRIPT_READY"), ("text", "  hi  ")]
    { is_listening := false, clipboard := "", pasted := [] }
    "  hi  " (by decide) (by decide)).2 (by decide)

/-- C9 counterexample: dispatching `PONG` on an authenticated connection is a
complete no-op, indistinguishable from an unknown message type: no reply, no
state change.  Nothing in the server tracks a per-connection liveness
timestamp (`connected_clients` is a plain set of sockets), refuting "the
connection's liveness timestamp is refreshed". -/
theorem C9_counterexample_pong_ignored :
    handle_message pongMsg
        { is_listening := true, clipboard := "c", pasted := [] }
      = { replies := [],
          ctrl := { is_listening := true, clipboard := "c", pasted := [] } } ∧
    handle_message [("type", "NO_SUCH_TYPE")]
        { is_listening := true, clipboard := "c", pasted := [] }
      = { replies := [],
          ctrl := { is_listening := true, clipboard := "c", pasted := [] } } := by
  decide

/-- C9 amended: `handle_message` falls through on `PONG` — it sends no reply
and leaves the controller state untouched (and, having no access to
`connected_clients`, cannot remove the connection, which therefore stays
registered); no liveness timestamp exists to refresh. -/
theorem C9_pong_is_noop (c : Controller) :
    handle_message pongMsg c = { replies := [], ctrl := c } := rfl

set_option maxRecDepth 100000 in
/-- C7: `GET` for the root path or the bootstrap resource name returns the
resource's bytes with content-type, no-cache and the hardening headers
`X-Content-Type-Options: nosniff`, `X-Frame-Options: DENY` and
`Referrer-Policy: no-referrer`; any other path — `/../etc/passwd`
included — gets a not-found response. -/
theorem C7_restricted_static_responder (content : String) (reqPath : String) :
    do_GET (some content) "/" = fileResponse content ∧
    do_GET (some content) "/speech-persistent.html" = fileResponse content ∧
    jGet (fileResponse content).headers "X-Content-Type-Options"
      = some "nosniff" ∧
    jGet (fileResponse content).headers "X-Frame-Options" = some "DENY" ∧
    jGet (fileResponse content).headers "Referrer-Policy"
      = some "no-referrer" ∧
    jGet (fileResponse content).headers "Cache-Control" = some "no-cache" ∧
    jGet (fileResponse content).headers "Content-type"
      = some "text/html; charset=utf-8" ∧
    (fileResponse content).body = some content ∧
    (allowedPath (pyStripSlashes (pyUnquote reqPath)) = false →
      ∀ fc : Option String, do_GET fc reqPath = notFoundResponse) ∧
    do_GET (some content) "/../etc/passwd" = notFoundResponse := by
  refine ⟨rfl, rfl, rfl, rfl, rfl, rfl, rfl, rfl, ?_, rfl⟩
  intro h fc
  simp [do_GET, h]

/-- Witness for C7 at the disallowed path `/secret.txt`. -/
theorem C7_witness :
    do_GET (some "page") "/secret.txt" = notFoundResponse ∧
    do_GET (some "page") "/" = fileResponse "page" :=
  ⟨(C7_restricted_static_responder "page" "/secret.txt").2.2.2.2.2.2.2.2.1
      (by decide) (some "page"),
   (C7_restricted_static_responder "page" "/secret.txt").1⟩

/-- C8: in the normal post-startup state (`tab_launched = True`), a failed
`START_LISTENING` delivery performs no relaunch at all: the recovery call
returns immediately on the `tab_launched` guard, which is never reset, so the
process-launch collaborator is not invoked even once — contradicting the
code's own log line "Attempting to relaunch Chrome tab..." and the claimed
single relaunch attempt. -/
theorem C8_relaunch_never_attempted :
    (start_dictation true false true "clip"
        { is_listening := false, tab_launched := true, openURLCalls := 1,
          original_clipboard := "" }).openURLCalls = 1 ∧
    (start_dictation true false true "clip"
        { is_listening := false, tab_launched := true, openURLCalls := 1,
          original_clipboard := "" }).is_listening = false ∧
    (∀ (launchOk : Bool) (c : CtrlLaunch), c.tab_launched = true →
      launch_persistent_chrome_tab launchOk c = c) := by
  refine ⟨rfl, rfl, ?_⟩
  intro launchOk c h
  unfold launch_persistent_chrome_tab
  rw [if_pos h]

/-- Witness for C8's guarded part at a concrete launched state. -/
theorem C8_witness :
    launch_persistent_chrome_tab true
        { is_listening := false, tab_launched := true, openURLCalls := 1,
          original_clipboard := "" }
      = { is_listening := false, tab_launched := true, openURLCalls := 1,
          original_clipboard := "" } :=
  C8_relaunch_never_attempted.2.2 true
    { is_listening := false, tab_launched := true, openURLCalls := 1,
      original_clipboard := "" } rfl

end DictationFixed
